import Mathlib

/-!
Order management service: service layer and request handlers

A verification development for `service/order.go` and `core/handler/grpc.go`.

Store calls (`Transaction`, `QueryByCondition`, `Update`) are the only effects of the
code.  A Go function that talks to the store is embedded as a value of `Prog`: a tree
whose nodes are the store calls it makes, in order, each followed by what the code does
with the answer.  `run` executes such a tree against any store implementation.  Logging
and `fmt.Println` have no effect on results and are left out.

`float64` is Lean's `Float` (IEEE 754 binary64); no algebraic law of the reals is used.
-/

/-! ## Values shared by both packages -/

/-- A Go `error` value: either built by `fmt.Errorf` in this code, or handed over by a
collaborator (`uuid.Parse`, the store). `origin` tells collaborators' errors apart. -/
inductive GoError where
  | errorf (text : String)
  | foreign (origin : String) (text : String)
  deriving DecidableEq, Repr

namespace GoError

/-- The method `err.Error()`. -/
def Error : GoError → String
  | errorf text => text
  | foreign _ text => text

end GoError

namespace uuid

/-- The 16-byte value `uuid.UUID`, as the number it encodes. -/
structure UUID where
  value : Nat
  deriving DecidableEq, Repr

end uuid

namespace models

/-- The string-backed enumeration `models.OrderStatus`. -/
abbrev OrderStatus := String

/-- One product line of an order, `models.Item`. -/
structure Item where
  ProductID : String
  Quantity : Int
  Price : Float
  deriving Repr

/-- The shipping address, `models.Address`. -/
structure Address where
  AddressLine1 : String
  AddressLine2 : String
  City : String
  State : String
  Zip : String
  Country : String
  deriving DecidableEq, Repr

/-- The order record, `models.Order`. -/
structure Order where
  OrderID : String
  CustomerID : uuid.UUID
  Items : List Item
  Address : Address
  Phone : String
  TotalPrice : Float
  Status : OrderStatus
  deriving Repr

/-- The zero value of `models.Address`. -/
def Address.zero : Address := ⟨"", "", "", "", "", ""⟩

/-- The zero value of `models.Order`, what `var order models.Order` declares. -/
def Order.zero : Order := ⟨"", ⟨0⟩, [], Address.zero, "", 0, ""⟩

end models

namespace database

/-- The values a Go `interface{}` holds in this code when used as the model of an
operation: a pointer to an order, a pointer to an empty `models.Product`, a pointer to
an (empty) order slice used as query destination, or nothing. -/
inductive Model where
  | unset
  | order (o : models.Order)
  | product
  | orders
  deriving Repr

/-- A value of a condition map `map[string]interface{}`. -/
inductive CondValue where
  | str (s : String)
  | id (u : uuid.UUID)
  deriving DecidableEq, Repr

/-- A condition map, as its key/value pairs in the order the source writes them. -/
abbrev Condition := List (String × CondValue)

/-- The command kinds of a transaction operation. -/
inductive Command where
  | unset
  | create
  | update
  deriving DecidableEq, Repr

/-- The constant `database.CreateCommand`. -/
def CreateCommand : Command := Command.create

/-- The constant `database.UpdateCommand`. -/
def UpdateCommand : Command := Command.update

/-- A raw SQL expression with its bound arguments. -/
structure RawExpr where
  SQL : String
  Vars : List Int
  deriving DecidableEq, Repr

/-- Modelled from the spec: the store method `BuildExpr`, absent from the sources; it
builds the raw expression whose text is the given SQL, bound to the given argument. -/
def BuildExpr (sql : String) (arg : Int) : RawExpr := ⟨sql, [arg]⟩

/-- The raw-expression update of an operation: a column and the expression assigned. -/
structure DbExpression where
  Column : String
  Value : Option RawExpr
  deriving DecidableEq, Repr

/-- One operation of a transaction. -/
structure DbOperation where
  Model : Model
  Condition : Condition
  Command : Command
  Expr : DbExpression
  deriving Repr

/-- An ordered batch of operations. -/
structure DbTransaction where
  Operations : List DbOperation
  deriving Repr

/-- The package-level template values `database.DbTxn`, `database.DbOps` and
`database.DbExpr`, which the service copies and then fills in.  Their declarations are
not part of the sources, so they are parameters. -/
structure Templates where
  DbTxn : DbTransaction
  DbOps : DbOperation
  DbExpr : DbExpression
  deriving Repr

/-- An element of the `[]interface{}` a query returns: a pointer to an order slice
(given by the slice it points to), or a value of some other type. -/
inductive AnyValue where
  | ordersPtr (orders : List models.Order)
  | other (typeName : String)
  deriving Repr

/-- What `QueryByCondition` returns: the result list and the error. -/
abbrev QueryResult := List AnyValue × Option GoError

end database

open database in
/-- A computation that may call the store. Each store call carries its arguments and
the rest of the computation as a function of the call's answer. `panic` is a Go run-time
panic (nil dereference, index out of range). -/
inductive Prog (α : Type) : Type where
  | ret (a : α)
  | panic (reason : String)
  | transaction (txn : DbTransaction) (k : Option GoError → Prog α)
  | query (dest : Model) (cond : Condition) (tables : List String) (k : QueryResult → Prog α)
  | update (order : models.Order) (k : Option GoError → Prog α)

namespace Prog

/-- Sequencing: run `p`, then continue with `f` on its result. -/
def bind {α β : Type} : Prog α → (α → Prog β) → Prog β
  | ret a, f => f a
  | panic r, _ => panic r
  | transaction txn k, f => transaction txn (fun r => bind (k r) f)
  | query d c t k, f => query d c t (fun r => bind (k r) f)
  | update o k, f => update o (fun r => bind (k r) f)

end Prog

/-- How a computation ends: with a value, or with a panic. -/
inductive Outcome (α : Type) where
  | done (a : α)
  | panicked (reason : String)
  deriving Repr

namespace database

/-- The store instance behind `storage.Instance`, over a store state `σ`. -/
structure Storage (σ : Type) where
  Transaction : DbTransaction → σ → Option GoError × σ
  QueryByCondition : Model → Condition → List String → σ → QueryResult × σ
  Update : models.Order → σ → Option GoError × σ

end database

/-- Execute a computation against a store, from a store state. -/
def run {σ α : Type} (st : database.Storage σ) : Prog α → σ → Outcome α × σ
  | Prog.ret a, s => (Outcome.done a, s)
  | Prog.panic r, s => (Outcome.panicked r, s)
  | Prog.transaction txn k, s => run st (k (st.Transaction txn s).1) (st.Transaction txn s).2
  | Prog.query d c t k, s =>
      run st (k (st.QueryByCondition d c t s).1) (st.QueryByCondition d c t s).2
  | Prog.update o k, s => run st (k (st.Update o s).1) (st.Update o s).2

/-! ## `service/order.go` -/

namespace service

open database

/-- The operation `orderCreation` of `CreateOrder`: a copy of the template with the
model and the command set. -/
def orderCreation (tpl : Templates) (order : models.Order) : DbOperation :=
  { tpl.DbOps with Model := Model.order order, Command := CreateCommand }

/-- The operation `queryUpdate` built in the loop body of `CreateOrder` for one item. -/
def queryUpdate (tpl : Templates) (item : models.Item) : DbOperation :=
  { tpl.DbOps with
    Model := Model.product
    Condition := [("id", CondValue.str item.ProductID)]
    Command := UpdateCommand
    Expr := { tpl.DbExpr with
              Column := "quantity"
              Value := some (BuildExpr "quantity - ?" item.Quantity) } }

/-- The function `service.CreateOrder`. -/
def CreateOrder (tpl : Templates) (order : models.Order) : Prog (Option GoError) :=
  let transaction : DbTransaction := tpl.DbTxn
  let transaction : DbTransaction :=
    { transaction with Operations := transaction.Operations ++ [orderCreation tpl order] }
  let transaction : DbTransaction :=
    order.Items.foldl
      (fun txn item => { txn with Operations := txn.Operations ++ [queryUpdate tpl item] })
      transaction
  Prog.transaction transaction fun err =>
    match err with
    | some e => Prog.ret (some e)
    | none => Prog.ret none

end service

namespace service

open database

/-- The body of `service.GetOrders` after the call of `QueryByCondition`, as a function
of what the call returned; the result is the returned pointer (`none` for `nil`) and
the error. -/
def GetOrders.afterQuery : QueryResult → Prog (Option (List models.Order) × Option GoError)
  | (res, err) =>
    match err with
    | some e => Prog.ret (none, some e)
    | none =>
      if res.length = 0 then
        Prog.ret (none, some (GoError.errorf "no orders found"))
      else
        match res.head? with
        | some (AnyValue.ordersPtr foundOrder) =>
          if foundOrder.length = 0 then
            Prog.ret (none, some (GoError.errorf "no orders found"))
          else
            Prog.ret (some foundOrder, none)
        | _ => Prog.panic "invalid memory address or nil pointer dereference"

/-- The function `service.GetOrders`. -/
def GetOrders (customerId : uuid.UUID) : Prog (Option (List models.Order) × Option GoError) :=
  let condition : Condition := [("customer_id", CondValue.id customerId)]
  let tables : List String := ["Items", "Address"]
  Prog.query Model.orders condition tables GetOrders.afterQuery

/-- The body of `service.GetOrder` after the call of `QueryByCondition`. -/
def GetOrder.afterQuery : QueryResult → Prog (List models.Order × Option GoError)
  | (res, err) =>
    match err with
    | some e => Prog.ret ([], some e)
    | none =>
      if res.length ≤ 0 then
        Prog.ret ([], some (GoError.errorf "order not found"))
      else
        match res.head? with
        | some (AnyValue.ordersPtr foundOrder) => Prog.ret (foundOrder, none)
        | _ => Prog.ret ([], some (GoError.errorf "type assertion failed"))

/-- The function `service.GetOrder`. -/
def GetOrder (customerId : uuid.UUID) (orderId : String) :
    Prog (List models.Order × Option GoError) :=
  let condition : Condition :=
    [("customer_id", CondValue.id customerId), ("order_id", CondValue.str orderId)]
  let tables : List String := ["Items", "Address"]
  Prog.query Model.orders condition tables GetOrder.afterQuery

/-- The function `service.UpdateOrder`. -/
def UpdateOrder (order : models.Order) : Prog (Option GoError) :=
  Prog.update order fun err =>
    match err with
    | some e => Prog.ret (some e)
    | none => Prog.ret none

end service

/-! ## Wire messages (package `proto`) -/

namespace proto

/-- The message `proto.OrderItem`. -/
structure OrderItem where
  ProductId : String
  Quantity : Int
  Price : Float
  deriving Repr

/-- The message `proto.Address`. -/
structure Address where
  AddressLine1 : String
  AddressLine2 : String
  City : String
  State : String
  Zip : String
  Country : String
  deriving DecidableEq, Repr

/-- The message `proto.Order`; `Address` is a pointer field. -/
structure Order where
  OrderId : String
  Status : String
  Items : List OrderItem
  Address : Option Address
  Phone : String
  deriving Repr

/-- The message `proto.CreateOrderRequest`; `Address` is a pointer field, `none` when
the request carries no address. -/
structure CreateOrderRequest where
  CustomerId : String
  Items : List OrderItem
  Address : Option Address
  Phone : String
  deriving Repr

/-- The message `proto.CreateOrderResponse`. -/
structure CreateOrderResponse where
  Message : String
  deriving DecidableEq, Repr

/-- The message `proto.GetOrdersRequest`. -/
structure GetOrdersRequest where
  CustomerId : String
  deriving DecidableEq, Repr

/-- The message `proto.GetOrdersResponse`. -/
structure GetOrdersResponse where
  Orders : List Order
  Message : String
  deriving Repr

/-- The message `proto.GetOrderRequest`. -/
structure GetOrderRequest where
  CustomerId : String
  OrderId : String
  deriving DecidableEq, Repr

/-- The message `proto.GetOrderResponse`. -/
structure GetOrderResponse where
  Order : Option Order
  Message : String
  deriving Repr

/-- The message `proto.UpdateOrderStatusRequest`. -/
structure UpdateOrderStatusRequest where
  CustomerId : String
  OrderId : String
  Status : String
  deriving DecidableEq, Repr

/-- The message `proto.UpdateOrderStatusResponse`. -/
structure UpdateOrderStatusResponse where
  Message : String
  deriving DecidableEq, Repr

end proto

/-! ## `core/handler/grpc.go` -/

namespace handler

/-- What the handlers take from outside this code: the library function `uuid.Parse`
and the template values of the `database` package. -/
structure Env where
  Parse : String → Except GoError uuid.UUID
  tpl : database.Templates

/-- The function `GetItemsFromOrder`. -/
def GetItemsFromOrder (order : List models.Item) : List proto.OrderItem :=
  order.foldl
    (fun items item =>
      items ++ [{ Quantity := item.Quantity, Price := item.Price, ProductId := item.ProductID }])
    []

/-- The loop of `Server.CreateOrder` over `req.Items`: it accumulates the total price
and appends one `models.Item` per request item. -/
def CreateOrder.loop (items : List proto.OrderItem) (totalPrice : Float)
    (order : models.Order) : Float × models.Order :=
  items.foldl
    (fun (acc : Float × models.Order) item =>
      (acc.1 + item.Price * Float.ofInt item.Quantity,
       { acc.2 with
         Items := acc.2.Items ++
           [{ ProductID := item.ProductId, Quantity := item.Quantity, Price := item.Price }] }))
    (totalPrice, order)

/-- The end of `Server.CreateOrder`, after `service.CreateOrder` returned. -/
def CreateOrder.afterService :
    Option GoError → Prog (Option proto.CreateOrderResponse × Option GoError)
  | some e =>
    Prog.ret (some { Message := "Failed to create the order. error: " ++ e.Error }, some e)
  | none => Prog.ret (some { Message := "Successfully created the order" }, none)

/-- The method `Server.CreateOrder`; the result is the response pointer and the error. -/
def CreateOrder (env : Env) (req : proto.CreateOrderRequest) :
    Prog (Option proto.CreateOrderResponse × Option GoError) :=
  let looped := CreateOrder.loop req.Items 0 models.Order.zero
  let totalPrice := looped.1
  let order := looped.2
  let order := { order with TotalPrice := totalPrice }
  match env.Parse req.CustomerId with
  | Except.error err => Prog.ret (some { Message := "Unable to parse buyer id" }, some err)
  | Except.ok buyerId =>
    let order := { order with CustomerID := buyerId }
    match req.Address with
    | none => Prog.panic "invalid memory address or nil pointer dereference"
    | some address =>
      let order := { order with
        Address := {
          AddressLine1 := address.AddressLine1
          AddressLine2 := address.AddressLine2
          City := address.City
          State := address.State
          Zip := address.Zip
          Country := address.Country } }
      let order := { order with Phone := req.Phone }
      Prog.bind (service.CreateOrder env.tpl order) CreateOrder.afterService

/-- The wire order built for one stored order in the loop of `Server.GetOrders`. -/
def GetOrders.ord (order : models.Order) : proto.Order :=
  { OrderId := order.OrderID
    Status := ""
    Items := GetItemsFromOrder order.Items
    Address := some {
      AddressLine1 := order.Address.AddressLine1
      AddressLine2 := order.Address.AddressLine2
      City := order.Address.City
      State := order.Address.State
      Zip := order.Address.Zip
      Country := order.Address.Country }
    Phone := order.Phone }

/-- The end of `Server.GetOrders`, after `service.GetOrders` returned. -/
def GetOrders.afterService :
    Option (List models.Order) × Option GoError →
      Prog (Option proto.GetOrdersResponse × Option GoError)
  | (orders, err) =>
    match err with
    | some e => Prog.ret (none, some e)
    | none =>
      match orders with
      | none => Prog.panic "invalid memory address or nil pointer dereference"
      | some orders =>
        let response :=
          orders.foldl (fun response order => response ++ [GetOrders.ord order]) []
        Prog.ret (some { Orders := response, Message := "" }, none)

/-- The method `Server.GetOrders`. -/
def GetOrders (env : Env) (req : proto.GetOrdersRequest) :
    Prog (Option proto.GetOrdersResponse × Option GoError) :=
  match env.Parse req.CustomerId with
  | Except.error err =>
    Prog.ret (some { Orders := [], Message := "Unable to parse buyer id" }, some err)
  | Except.ok buyerId => Prog.bind (service.GetOrders buyerId) GetOrders.afterService

/-- The wire order built in `Server.GetOrder` from the first fetched order. -/
def GetOrder.response (order : models.Order) : proto.Order :=
  { OrderId := order.OrderID
    Status := order.Status
    Items := GetItemsFromOrder order.Items
    Address := some {
      AddressLine1 := order.Address.AddressLine1
      AddressLine2 := order.Address.AddressLine2
      City := order.Address.City
      State := order.Address.State
      Zip := order.Address.Zip
      Country := order.Address.Country }
    Phone := order.Phone }

/-- The end of `Server.GetOrder`, after `service.GetOrder` returned. -/
def GetOrder.afterService :
    List models.Order × Option GoError → Prog (Option proto.GetOrderResponse × Option GoError)
  | (orderResult, err) =>
    match err with
    | some e => Prog.ret (none, some e)
    | none =>
      if orderResult.length ≤ 0 then
        Prog.ret (some { Order := none, Message := "No order found" },
          some (GoError.errorf "no order found"))
      else
        match orderResult.head? with
        | none => Prog.panic "index out of range [0] with length 0"
        | some order =>
          Prog.ret (some { Order := some (GetOrder.response order)
                           Message := "Successfully retrieved the order" }, none)

/-- The method `Server.GetOrder`. -/
def GetOrder (env : Env) (req : proto.GetOrderRequest) :
    Prog (Option proto.GetOrderResponse × Option GoError) :=
  match env.Parse req.CustomerId with
  | Except.error err =>
    Prog.ret (some { Order := none, Message := "Unable to parse buyer id" }, some err)
  | Except.ok buyerId =>
    Prog.bind (service.GetOrder buyerId req.OrderId) GetOrder.afterService

/-- The end of `Server.UpdateOrderStatus`, after `service.UpdateOrder` returned. -/
def UpdateOrderStatus.afterUpdate :
    Option GoError → Prog (Option proto.UpdateOrderStatusResponse × Option GoError)
  | some e =>
    Prog.ret (some { Message := "Failed to update the order status. error: " ++ e.Error },
      some e)
  | none => Prog.ret (some { Message := "Successfully updated the order status" }, none)

/-- The part of `Server.UpdateOrderStatus` after `service.GetOrder` returned. -/
def UpdateOrderStatus.afterService (req : proto.UpdateOrderStatusRequest) :
    List models.Order × Option GoError →
      Prog (Option proto.UpdateOrderStatusResponse × Option GoError)
  | (orderResult, err) =>
    match err with
    | some e => Prog.ret (none, some e)
    | none =>
      if orderResult.length ≤ 0 then
        Prog.ret (some { Message := "No order found" }, some (GoError.errorf "no order found"))
      else
        match orderResult.head? with
        | none => Prog.panic "index out of range [0] with length 0"
        | some order =>
          let order :=
            if order.Status ≠ req.Status then { order with Status := req.Status } else order
          Prog.bind (service.UpdateOrder order) UpdateOrderStatus.afterUpdate

/-- The method `Server.UpdateOrderStatus`. -/
def UpdateOrderStatus (env : Env) (req : proto.UpdateOrderStatusRequest) :
    Prog (Option proto.UpdateOrderStatusResponse × Option GoError) :=
  match env.Parse req.CustomerId with
  | Except.error err => Prog.ret (some { Message := "Unable to parse buyer id" }, some err)
  | Except.ok buyerId =>
    Prog.bind (service.GetOrder buyerId req.OrderId) (UpdateOrderStatus.afterService req)

end handler

/-! ## A reference store -/

namespace database

/-- Modelled from the spec: a row of the Product entity, absent from the sources; it is
identified by `id` and has the `quantity` field that order creation decrements. -/
structure ProductRow where
  id : String
  quantity : Int
  deriving DecidableEq, Repr

/-- Modelled from the spec: the state of the relational store, absent from the sources:
the order rows (each with its nested items and address) and the product rows. -/
structure StoreState where
  orders : List models.Order
  products : List ProductRow
  deriving Repr

/-- Modelled from the spec: whether a product row meets a condition map; the store code
is absent from the sources. Every entry has to be an equality on the `id` column. -/
def ProductRow.satisfies (p : ProductRow) (cond : Condition) : Bool :=
  cond.all (fun kv => kv.1 == "id" && kv.2 == CondValue.str p.id)

/-- Modelled from the spec: the effect of one operation of a transaction on the store
state; the executor is absent from the sources. A Create command inserts the order
record; an Update command on the Product model with the raw expression `quantity - ?`
on column `quantity` subtracts the bound argument from the quantity of every product
row that meets the condition, in one statement. `fault` lets any operation fail in any
state (a constraint violation, a lost connection). -/
def applyOperation (fault : DbOperation → StoreState → Option GoError) (op : DbOperation)
    (s : StoreState) : Except GoError StoreState :=
  match fault op s with
  | some e => Except.error e
  | none =>
    match op.Command, op.Model, op.Expr.Value with
    | Command.create, Model.order o, _ => Except.ok { s with orders := s.orders ++ [o] }
    | Command.update, Model.product, some v =>
      if op.Expr.Column = "quantity" ∧ v.SQL = "quantity - ?" then
        match v.Vars with
        | [n] =>
          Except.ok { s with
            products := s.products.map fun p =>
              if p.satisfies op.Condition then { p with quantity := p.quantity - n } else p }
        | _ => Except.error (GoError.foreign "store" "wrong number of bound arguments")
      else Except.error (GoError.foreign "store" "unsupported expression")
    | _, _, _ => Except.error (GoError.foreign "store" "unsupported operation")

/-- Modelled from the spec: the operations of a batch applied in order, stopping at the
first failure; the executor is absent from the sources. -/
def applyOperations (fault : DbOperation → StoreState → Option GoError) :
    List DbOperation → StoreState → Except GoError StoreState
  | [], s => Except.ok s
  | op :: rest, s =>
    match applyOperation fault op s with
    | Except.ok s1 => applyOperations fault rest s1
    | Except.error e => Except.error e

/-- Modelled from the spec: the transactional batch executor, absent from the sources,
"committing all-or-nothing": when every operation succeeds the new state is the result
of all of them, and when one fails the error is returned and the state is the one the
transaction started from. -/
def atomicTransaction (fault : DbOperation → StoreState → Option GoError)
    (txn : DbTransaction) (s : StoreState) : Option GoError × StoreState :=
  match applyOperations fault txn.Operations s with
  | Except.ok s1 => (none, s1)
  | Except.error e => (some e, s)

/-- Modelled from the spec: whether an order row meets a condition map on the columns
`customer_id` and `order_id`; the store code is absent from the sources. -/
def orderSatisfies (o : models.Order) (cond : Condition) : Bool :=
  cond.all (fun kv =>
    (kv.1 == "customer_id" && kv.2 == CondValue.id o.CustomerID) ||
    (kv.1 == "order_id" && kv.2 == CondValue.str o.OrderID))

/-- Modelled from the spec: a store with the atomic batch executor, a conditioned query
that returns a pointer to the slice of matching order rows, and an update of the row
with the same order id; the store code is absent from the sources. -/
def referenceStorage (fault : DbOperation → StoreState → Option GoError) : Storage StoreState :=
  { Transaction := atomicTransaction fault
    QueryByCondition := fun _ cond _ s =>
      (([AnyValue.ordersPtr (s.orders.filter (fun o => orderSatisfies o cond))], none), s)
    Update := fun o s =>
      (none, { s with orders := s.orders.map (fun r => if r.OrderID = o.OrderID then o else r) }) }

/-- The total quantity a list of items orders of the product `pid`. -/
def orderedQuantity (items : List models.Item) (pid : String) : Int :=
  ((items.filter (fun item => item.ProductID = pid)).map (fun item => item.Quantity)).sum

/-- The product rows after every row's quantity went down by the total ordered of it. -/
def decremented (products : List ProductRow) (items : List models.Item) : List ProductRow :=
  products.map (fun p => { p with quantity := p.quantity - orderedQuantity items p.id })

/-- A fault function under which no operation fails. -/
def noFault : DbOperation → StoreState → Option GoError := fun _ _ => none

/-- A store state with no order and three products. -/
def sampleState : StoreState :=
  { orders := [], products := [⟨"p-1", 10⟩, ⟨"p-2", 7⟩, ⟨"p-3", 5⟩] }

end database

/-! ## Doubles used to exercise the code on concrete inputs -/

namespace database

/-- A store double that answers every call with a fixed answer and writes the name of
each call it receives to a log, which is its state. -/
def stubStorage (txnAns : Option GoError) (queryAns : QueryResult) (updAns : Option GoError) :
    Storage (List String) :=
  { Transaction := fun _ log => (txnAns, log ++ ["Transaction"])
    QueryByCondition := fun _ _ _ log => (queryAns, log ++ ["QueryByCondition"])
    Update := fun _ log => (updAns, log ++ ["Update"]) }

/-- Templates holding zero values: no operation, no model, no condition, no command,
no expression. -/
def zeroTemplates : Templates :=
  { DbTxn := { Operations := [] }
    DbOps := { Model := Model.unset, Condition := [], Command := Command.unset,
               Expr := { Column := "", Value := none } }
    DbExpr := { Column := "", Value := none } }

end database

namespace handler

/-- An environment whose `uuid.Parse` accepts one text only, the canonical form of the
UUID with value 1, and rejects every other. -/
def sampleEnv : Env :=
  { Parse := fun text =>
      if text = "00000000-0000-0000-0000-000000000001" then Except.ok ⟨1⟩
      else Except.error (GoError.foreign "uuid" "invalid UUID length")
    tpl := database.zeroTemplates }

end handler

/-- An order with two lines on the same product and one on another. -/
def sampleOrder : models.Order :=
  { OrderID := "o-1"
    CustomerID := ⟨1⟩
    Items := [⟨"p-1", 2, 10⟩, ⟨"p-2", 1, 4⟩, ⟨"p-1", 3, 10⟩]
    Address := ⟨"1 Main St", "", "Springfield", "IL", "62701", "US"⟩
    Phone := "555-0100"
    TotalPrice := 54
    Status := "" }

/-- The sum of a list of `float64` values, accumulated from 0 in list order with
`float64` addition. -/
def float64Sum (xs : List Float) : Float :=
  xs.foldl (fun acc x => acc + x) 0

/-- A request with a customer id that `sampleEnv` rejects. -/
def badCreateRequest : proto.CreateOrderRequest :=
  { CustomerId := "not-a-uuid", Items := [], Address := none, Phone := "" }

/-- A create request that `sampleEnv` accepts, with two lines on the same product. -/
def sampleCreateRequest : proto.CreateOrderRequest :=
  { CustomerId := "00000000-0000-0000-0000-000000000001"
    Items := [⟨"p-1", 2, 10⟩, ⟨"p-2", 1, 4⟩, ⟨"p-1", 3, 10⟩]
    Address := some ⟨"1 Main St", "", "Springfield", "IL", "62701", "US"⟩
    Phone := "555-0100" }

/-- The error `sampleEnv` gives for a text it rejects. -/
def sampleParseError : GoError := GoError.foreign "uuid" "invalid UUID length"

/-- A store failure. -/
def sampleStoreError : GoError := GoError.foreign "store" "connection refused"

/-- The address of the sample create request. -/
def sampleAddress : proto.Address := ⟨"1 Main St", "", "Springfield", "IL", "62701", "US"⟩

/-- A status update request that `sampleEnv` accepts, with a status that is not one of
the service's own. -/
def sampleUpdateRequest : proto.UpdateOrderStatusRequest :=
  { CustomerId := "00000000-0000-0000-0000-000000000001", OrderId := "o-1",
    Status := "teleported" }

/-- A list request that `sampleEnv` accepts. -/
def sampleGetOrdersRequest : proto.GetOrdersRequest :=
  { CustomerId := "00000000-0000-0000-0000-000000000001" }

/-- A single-order request that `sampleEnv` accepts. -/
def sampleGetOrderRequest : proto.GetOrderRequest :=
  { CustomerId := "00000000-0000-0000-0000-000000000001", OrderId := "o-1" }

/-! ## Lemmas on the building blocks -/

namespace Prog

theorem bind_ret {α β : Type} (a : α) (f : α → Prog β) : bind (ret a) f = f a := rfl

theorem bind_query {α β : Type} (d : database.Model) (c : database.Condition) (t : List String)
    (k : database.QueryResult → Prog α) (f : α → Prog β) :
    bind (query d c t k) f = query d c t (fun r => bind (k r) f) := rfl

theorem bind_transaction {α β : Type} (txn : database.DbTransaction)
    (k : Option GoError → Prog α) (f : α → Prog β) :
    bind (transaction txn k) f = transaction txn (fun r => bind (k r) f) := rfl

theorem bind_update {α β : Type} (o : models.Order)
    (k : Option GoError → Prog α) (f : α → Prog β) :
    bind (update o k) f = update o (fun r => bind (k r) f) := rfl

end Prog

namespace service

open database

/-- The loop of `CreateOrder` appends one `queryUpdate` per item, in item order. -/
theorem foldl_queryUpdate (tpl : Templates) (items : List models.Item) (txn : DbTransaction) :
    (items.foldl
      (fun txn item => { txn with Operations := txn.Operations ++ [queryUpdate tpl item] })
      txn).Operations = txn.Operations ++ items.map (queryUpdate tpl) := by
  induction items generalizing txn with
  | nil => simp
  | cons item rest ih => simp [List.foldl_cons, ih]

/-- The transaction `CreateOrder` submits, and that it returns the store's answer. -/
theorem CreateOrder_eq (tpl : Templates) (order : models.Order) :
    CreateOrder tpl order =
      Prog.transaction
        { Operations :=
            tpl.DbTxn.Operations ++ orderCreation tpl order :: order.Items.map (queryUpdate tpl) }
        Prog.ret := by
  unfold CreateOrder
  simp only []
  congr 1
  · have h := foldl_queryUpdate tpl order.Items
      { Operations := tpl.DbTxn.Operations ++ [orderCreation tpl order] }
    generalize hf : (order.Items.foldl
      (fun txn item => { txn with Operations := txn.Operations ++ [queryUpdate tpl item] })
      ({ Operations := tpl.DbTxn.Operations ++ [orderCreation tpl order] } : DbTransaction)) = t
      at h
    cases t
    simp at h
    simp [h]
  · funext err
    cases err <;> rfl

end service

namespace handler

/-- The loop of `Server.CreateOrder`, as a total and an item list. -/
theorem CreateOrder.loop_eq (items : List proto.OrderItem) (totalPrice : Float)
    (order : models.Order) :
    CreateOrder.loop items totalPrice order =
      (items.foldl (fun acc item => acc + item.Price * Float.ofInt item.Quantity) totalPrice,
       { order with
         Items := order.Items ++
           items.map (fun item =>
             { ProductID := item.ProductId, Quantity := item.Quantity, Price := item.Price }) }) := by
  unfold CreateOrder.loop
  induction items generalizing totalPrice order with
  | nil => simp
  | cons item rest ih => simp [List.foldl_cons, ih]

/-- The function `GetItemsFromOrder` maps each item to its wire form, in order. -/
theorem GetItemsFromOrder_eq (order : List models.Item) :
    GetItemsFromOrder order =
      order.map (fun item =>
        ({ Quantity := item.Quantity, Price := item.Price, ProductId := item.ProductID } :
          proto.OrderItem)) := by
  unfold GetItemsFromOrder
  suffices h : ∀ (acc : List proto.OrderItem),
      order.foldl
        (fun items item =>
          items ++ [({ Quantity := item.Quantity, Price := item.Price,
                       ProductId := item.ProductID } : proto.OrderItem)]) acc =
        acc ++ order.map (fun item =>
          ({ Quantity := item.Quantity, Price := item.Price, ProductId := item.ProductID } :
            proto.OrderItem)) by
    simpa using h []
  induction order with
  | nil => simp
  | cons item rest ih => intro acc; simp [List.foldl_cons, ih]

end handler

namespace database

/-- One decrement operation built by `service.CreateOrder`, on the reference store. -/
theorem applyOperation_queryUpdate (fault : DbOperation → StoreState → Option GoError)
    (tpl : Templates) (item : models.Item) (s : StoreState)
    (hf : fault (service.queryUpdate tpl item) s = none) :
    applyOperation fault (service.queryUpdate tpl item) s =
      Except.ok { s with
        products := s.products.map fun p =>
          if item.ProductID = p.id then { p with quantity := p.quantity - item.Quantity }
          else p } := by
  unfold applyOperation
  rw [hf]
  simp [service.queryUpdate, UpdateCommand, BuildExpr, ProductRow.satisfies]

/-- The decrement operations of a whole item list, on the reference store: when they
all succeed, the orders are untouched and every product row went down by the total
ordered of it. -/
theorem applyOperations_queryUpdate (fault : DbOperation → StoreState → Option GoError)
    (tpl : Templates) (items : List models.Item) (s s1 : StoreState)
    (h : applyOperations fault (items.map (service.queryUpdate tpl)) s = Except.ok s1) :
    s1 = { orders := s.orders, products := decremented s.products items } := by
  induction items generalizing s with
  | nil =>
    simp [applyOperations] at h
    subst h
    simp [decremented, orderedQuantity]
  | cons item rest ih =>
    simp only [List.map_cons, applyOperations] at h
    cases hf : fault (service.queryUpdate tpl item) s with
    | some e => simp [applyOperation, hf] at h
    | none =>
      rw [applyOperation_queryUpdate fault tpl item s hf] at h
      have h2 := ih _ h
      rw [h2]
      simp only [decremented, List.map_map, StoreState.mk.injEq, true_and]
      apply List.map_congr_left
      intro p _
      by_cases hp : item.ProductID = p.id
      · simp [hp, orderedQuantity, List.filter_cons]
        ring
      · simp [hp, orderedQuantity, List.filter_cons]

end database

namespace service

open database

theorem GetOrders_afterQuery_error (res : List AnyValue) (e : GoError) :
    GetOrders.afterQuery (res, some e) = Prog.ret (none, some e) := rfl

theorem GetOrders_afterQuery_nil :
    GetOrders.afterQuery ([], none) =
      Prog.ret (none, some (GoError.errorf "no orders found")) := rfl

theorem GetOrders_afterQuery_empty (rest : List AnyValue) :
    GetOrders.afterQuery (AnyValue.ordersPtr [] :: rest, none) =
      Prog.ret (none, some (GoError.errorf "no orders found")) := rfl

theorem GetOrders_afterQuery_rows (o : models.Order) (os : List models.Order)
    (rest : List AnyValue) :
    GetOrders.afterQuery (AnyValue.ordersPtr (o :: os) :: rest, none) =
      Prog.ret (some (o :: os), none) := rfl

theorem GetOrders_afterQuery_other (typeName : String) (rest : List AnyValue) :
    GetOrders.afterQuery (AnyValue.other typeName :: rest, none) =
      Prog.panic "invalid memory address or nil pointer dereference" := rfl

theorem GetOrder_afterQuery_error (res : List AnyValue) (e : GoError) :
    GetOrder.afterQuery (res, some e) = Prog.ret ([], some e) := rfl

theorem GetOrder_afterQuery_nil :
    GetOrder.afterQuery ([], none) =
      Prog.ret ([], some (GoError.errorf "order not found")) := rfl

theorem GetOrder_afterQuery_rows (os : List models.Order) (rest : List AnyValue) :
    GetOrder.afterQuery (AnyValue.ordersPtr os :: rest, none) = Prog.ret (os, none) := rfl

theorem GetOrder_afterQuery_other (typeName : String) (rest : List AnyValue) :
    GetOrder.afterQuery (AnyValue.other typeName :: rest, none) =
      Prog.ret ([], some (GoError.errorf "type assertion failed")) := rfl

/-- The function `service.UpdateOrder` is one `Update` call whose answer it returns. -/
theorem UpdateOrder_eq (order : models.Order) :
    UpdateOrder order = Prog.update order Prog.ret := by
  unfold UpdateOrder
  congr 1
  funext err
  cases err <;> rfl

end service

/-- Running a store query node: the store is asked once, and the rest runs on its
answer from the state it left. -/
theorem run_query {σ α : Type} (st : database.Storage σ) (d : database.Model)
    (c : database.Condition) (t : List String) (k : database.QueryResult → Prog α) (s : σ) :
    run st (Prog.query d c t k) s =
      run st (k (st.QueryByCondition d c t s).1) (st.QueryByCondition d c t s).2 := rfl

theorem run_ret {σ α : Type} (st : database.Storage σ) (a : α) (s : σ) :
    run st (Prog.ret a) s = (Outcome.done a, s) := rfl

/-- After `service.GetOrder` returned rows, `Server.UpdateOrderStatus` does one store
`Update` of the first row with the requested status. -/
theorem afterService_rows_eq (req : proto.UpdateOrderStatusRequest)
    (first : models.Order) (rest : List models.Order) :
    handler.UpdateOrderStatus.afterService req (first :: rest, none) =
      Prog.update { first with Status := req.Status } handler.UpdateOrderStatus.afterUpdate := by
  have hu : ∀ o : models.Order,
      Prog.bind (service.UpdateOrder o) handler.UpdateOrderStatus.afterUpdate =
        Prog.update o handler.UpdateOrderStatus.afterUpdate := by
    intro o
    rw [service.UpdateOrder_eq, Prog.bind_update]
    rfl
  by_cases hs : first.Status = req.Status
  · have he : ({ first with Status := req.Status } : models.Order) = first := by
      rw [← hs]
    rw [he]
    simp [handler.UpdateOrderStatus.afterService, hs, hu]
  · simp [handler.UpdateOrderStatus.afterService, hs, hu]
/-! ## The claims -/

open database in
/-- C1: when the transaction template holds no operation, `service.CreateOrder` is one
`Transaction` call followed by returning its answer; the submitted operation list has
length `n + 1` for `n` items, operation 0 is a Create command on the order itself, and
operation `k + 1` is an Update command on the Product model with condition
`id = items[k].ProductID` and the raw expression `quantity - ?` on column `quantity`
bound to `items[k].Quantity`, one per item occurrence and in item order. -/
theorem CreateOrder_builds_one_transaction (tpl : Templates) (order : models.Order)
    (hT : tpl.DbTxn.Operations = []) :
    ∃ txn : DbTransaction,
      service.CreateOrder tpl order = Prog.transaction txn Prog.ret ∧
      txn.Operations.length = order.Items.length + 1 ∧
      (∃ op, txn.Operations[0]? = some op ∧
        op.Model = Model.order order ∧ op.Command = CreateCommand) ∧
      ∀ (k : Nat) (hk : k < order.Items.length),
        ∃ op, txn.Operations[k + 1]? = some op ∧
          op.Model = Model.product ∧
          op.Condition = [("id", CondValue.str (order.Items.get ⟨k, hk⟩).ProductID)] ∧
          op.Command = UpdateCommand ∧
          op.Expr.Column = "quantity" ∧
          op.Expr.Value = some (BuildExpr "quantity - ?" (order.Items.get ⟨k, hk⟩).Quantity) := by
  refine ⟨{ Operations :=
      tpl.DbTxn.Operations ++ service.orderCreation tpl order ::
        order.Items.map (service.queryUpdate tpl) }, service.CreateOrder_eq tpl order, ?_, ?_, ?_⟩
  · simp [hT]
  · exact ⟨service.orderCreation tpl order, by simp [hT], rfl, rfl⟩
  · intro k hk
    refine ⟨service.queryUpdate tpl (order.Items.get ⟨k, hk⟩), ?_, rfl, rfl, rfl, rfl, rfl⟩
    simp [hT, List.getElem?_eq_getElem, hk]

/-- C1 at the sample order with zero-valued templates. -/
theorem CreateOrder_builds_one_transaction_witness :
    database.zeroTemplates.DbTxn.Operations = [] ∧
    ∃ txn : database.DbTransaction,
      service.CreateOrder database.zeroTemplates sampleOrder = Prog.transaction txn Prog.ret ∧
      txn.Operations.length = sampleOrder.Items.length + 1 ∧
      (∃ op, txn.Operations[0]? = some op ∧
        op.Model = database.Model.order sampleOrder ∧
        op.Command = database.CreateCommand) ∧
      ∀ (k : Nat) (hk : k < sampleOrder.Items.length),
        ∃ op, txn.Operations[k + 1]? = some op ∧
          op.Model = database.Model.product ∧
          op.Condition =
            [("id", database.CondValue.str (sampleOrder.Items.get ⟨k, hk⟩).ProductID)] ∧
          op.Command = database.UpdateCommand ∧
          op.Expr.Column = "quantity" ∧
          op.Expr.Value =
            some (database.BuildExpr "quantity - ?" (sampleOrder.Items.get ⟨k, hk⟩).Quantity) :=
  ⟨rfl, CreateOrder_builds_one_transaction database.zeroTemplates sampleOrder rfl⟩

/-- C3: when `uuid.Parse` rejects the request's customer id with error `e`, each of the
four handlers is a computation that makes no store call and returns a response with
message "Unable to parse buyer id" together with `e`. -/
theorem handlers_reject_malformed_customer_id (env : handler.Env) :
    (∀ (req : proto.CreateOrderRequest) (e : GoError),
      env.Parse req.CustomerId = Except.error e →
      handler.CreateOrder env req =
        Prog.ret (some { Message := "Unable to parse buyer id" }, some e)) ∧
    (∀ (req : proto.GetOrdersRequest) (e : GoError),
      env.Parse req.CustomerId = Except.error e →
      handler.GetOrders env req =
        Prog.ret (some { Orders := [], Message := "Unable to parse buyer id" }, some e)) ∧
    (∀ (req : proto.GetOrderRequest) (e : GoError),
      env.Parse req.CustomerId = Except.error e →
      handler.GetOrder env req =
        Prog.ret (some { Order := none, Message := "Unable to parse buyer id" }, some e)) ∧
    (∀ (req : proto.UpdateOrderStatusRequest) (e : GoError),
      env.Parse req.CustomerId = Except.error e →
      handler.UpdateOrderStatus env req =
        Prog.ret (some { Message := "Unable to parse buyer id" }, some e)) := by
  refine ⟨?_, ?_, ?_, ?_⟩
  · intro req e h
    simp [handler.CreateOrder, h]
  · intro req e h
    simp [handler.GetOrders, h]
  · intro req e h
    simp [handler.GetOrder, h]
  · intro req e h
    simp [handler.UpdateOrderStatus, h]

/-- C3 at requests whose customer id is the text "not-a-uuid". -/
theorem handlers_reject_malformed_customer_id_witness :
    handler.sampleEnv.Parse "not-a-uuid" = Except.error sampleParseError ∧
    handler.CreateOrder handler.sampleEnv badCreateRequest =
      Prog.ret (some { Message := "Unable to parse buyer id" }, some sampleParseError) ∧
    handler.GetOrders handler.sampleEnv { CustomerId := "not-a-uuid" } =
      Prog.ret (some { Orders := [], Message := "Unable to parse buyer id" },
        some sampleParseError) ∧
    handler.GetOrder handler.sampleEnv { CustomerId := "not-a-uuid", OrderId := "o-1" } =
      Prog.ret (some { Order := none, Message := "Unable to parse buyer id" },
        some sampleParseError) ∧
    handler.UpdateOrderStatus handler.sampleEnv
        { CustomerId := "not-a-uuid", OrderId := "o-1", Status := "shipped" } =
      Prog.ret (some { Message := "Unable to parse buyer id" }, some sampleParseError) :=
  ⟨by rfl,
   (handlers_reject_malformed_customer_id handler.sampleEnv).1 badCreateRequest _ (by rfl),
   (handlers_reject_malformed_customer_id handler.sampleEnv).2.1 _ _ (by rfl),
   (handlers_reject_malformed_customer_id handler.sampleEnv).2.2.1 _ _ (by rfl),
   (handlers_reject_malformed_customer_id handler.sampleEnv).2.2.2 _ _ (by rfl)⟩

/-- C4: for a request whose customer id parses, the handler either stops with a nil
dereference before any service call (the request carries no address), or passes to
`service.CreateOrder` an order whose `TotalPrice` is the `float64` sum, accumulated
from 0 in item order, of `Price * float64(Quantity)` over the request's items, and whose
`Items` has the length of the request's item list. -/
theorem CreateOrder_total_price (env : handler.Env) (req : proto.CreateOrderRequest)
    (buyerId : uuid.UUID) (h : env.Parse req.CustomerId = Except.ok buyerId) :
    (req.Address = none ∧
      handler.CreateOrder env req =
        Prog.panic "invalid memory address or nil pointer dereference") ∨
    ∃ order : models.Order,
      handler.CreateOrder env req =
        Prog.bind (service.CreateOrder env.tpl order) handler.CreateOrder.afterService ∧
      order.TotalPrice =
        float64Sum (req.Items.map (fun item => item.Price * Float.ofInt item.Quantity)) ∧
      order.Items.length = req.Items.length := by
  cases ha : req.Address with
  | none =>
    left
    refine ⟨rfl, ?_⟩
    simp [handler.CreateOrder, h, ha]
  | some address =>
    right
    simp only [handler.CreateOrder, h, ha, handler.CreateOrder.loop_eq]
    refine ⟨_, rfl, ?_, ?_⟩
    · simp [float64Sum, List.foldl_map]
    · simp [models.Order.zero]

/-- C4 at the sample request: the order passed on has total price
`((0 + 10 * 2) + 4 * 1) + 10 * 3` and three items. -/
theorem CreateOrder_total_price_witness :
    handler.sampleEnv.Parse sampleCreateRequest.CustomerId = Except.ok ⟨1⟩ ∧
    ((sampleCreateRequest.Address = none ∧
      handler.CreateOrder handler.sampleEnv sampleCreateRequest =
        Prog.panic "invalid memory address or nil pointer dereference") ∨
    ∃ order : models.Order,
      handler.CreateOrder handler.sampleEnv sampleCreateRequest =
        Prog.bind (service.CreateOrder handler.sampleEnv.tpl order)
          handler.CreateOrder.afterService ∧
      order.TotalPrice =
        float64Sum
          (sampleCreateRequest.Items.map (fun item => item.Price * Float.ofInt item.Quantity)) ∧
      order.Items.length = sampleCreateRequest.Items.length) :=
  ⟨by rfl, CreateOrder_total_price handler.sampleEnv sampleCreateRequest ⟨1⟩ (by rfl)⟩


open database in
/-- C2: on a store whose `Transaction` is the all-or-nothing executor, with any fault
behaviour and from any state, `service.CreateOrder` is a single `Transaction` call and
nothing else; it either returns nil, and then the state holds the order row appended
and every product row's quantity lowered by exactly the total ordered of that product,
or returns an error, and then the state is the initial one. -/
theorem CreateOrder_all_or_nothing (fault : DbOperation → StoreState → Option GoError)
    (st : Storage StoreState) (hst : st.Transaction = atomicTransaction fault)
    (tpl : Templates) (hT : tpl.DbTxn.Operations = [])
    (order : models.Order) (s : StoreState) :
    (∃ txn, service.CreateOrder tpl order = Prog.transaction txn Prog.ret) ∧
    (run st (service.CreateOrder tpl order) s =
        (Outcome.done none,
         { orders := s.orders ++ [order], products := decremented s.products order.Items }) ∨
     ∃ e, run st (service.CreateOrder tpl order) s = (Outcome.done (some e), s)) := by
  refine ⟨⟨_, service.CreateOrder_eq tpl order⟩, ?_⟩
  rw [service.CreateOrder_eq, hT]
  simp only [run, hst, List.nil_append, atomicTransaction, applyOperations]
  cases hf : fault (service.orderCreation tpl order) s with
  | some e =>
    right
    exact ⟨e, by simp [applyOperation, hf]⟩
  | none =>
    have h1 : applyOperation fault (service.orderCreation tpl order) s =
        Except.ok { s with orders := s.orders ++ [order] } := by
      unfold applyOperation
      rw [hf]
      simp [service.orderCreation, CreateCommand]
    rw [h1]
    simp only []
    cases h2 : applyOperations fault (order.Items.map (service.queryUpdate tpl))
        { s with orders := s.orders ++ [order] } with
    | error e =>
      right
      exact ⟨e, rfl⟩
    | ok s1 =>
      left
      rw [applyOperations_queryUpdate fault tpl order.Items _ s1 h2]

/-- C2 at the sample order on the reference store, from a state with three products. -/
theorem CreateOrder_all_or_nothing_witness :
    (database.referenceStorage database.noFault).Transaction =
      database.atomicTransaction database.noFault ∧
    database.zeroTemplates.DbTxn.Operations = [] ∧
    ((∃ txn, service.CreateOrder database.zeroTemplates sampleOrder =
        Prog.transaction txn Prog.ret) ∧
     (run (database.referenceStorage database.noFault)
          (service.CreateOrder database.zeroTemplates sampleOrder) database.sampleState =
        (Outcome.done none,
         { orders := database.sampleState.orders ++ [sampleOrder]
           products := database.decremented database.sampleState.products sampleOrder.Items }) ∨
      ∃ e, run (database.referenceStorage database.noFault)
          (service.CreateOrder database.zeroTemplates sampleOrder) database.sampleState =
        (Outcome.done (some e), database.sampleState))) :=
  ⟨rfl, rfl,
   CreateOrder_all_or_nothing database.noFault (database.referenceStorage database.noFault) rfl
     database.zeroTemplates rfl sampleOrder database.sampleState⟩

/-- The sample order on the reference store: it commits, and the quantities 10, 7, 5
of the three products become 5, 6, 5. -/
theorem CreateOrder_sample_run :
    run (database.referenceStorage database.noFault)
        (service.CreateOrder database.zeroTemplates sampleOrder) database.sampleState =
      (Outcome.done none,
       { orders := [sampleOrder], products := [⟨"p-1", 5⟩, ⟨"p-2", 6⟩, ⟨"p-3", 5⟩] }) := by
  rfl

/-- The sample order on the reference store when the decrement of product "p-2" fails:
the error comes back and the state is the initial one, with no order row. -/
theorem CreateOrder_sample_run_failing_decrement :
    run (database.referenceStorage
          (fun op _ =>
            if op.Condition = [("id", database.CondValue.str "p-2")] then some sampleStoreError
            else none))
        (service.CreateOrder database.zeroTemplates sampleOrder) database.sampleState =
      (Outcome.done (some sampleStoreError), database.sampleState) := by
  rfl

open database in
/-- C5: for a customer id that parses, when the store query succeeds with an empty
result list or with a first result that points to an empty order slice,
`service.GetOrders` returns a nil order list with the error "no orders found", and the
`GetOrders` handler returns that error with no response; and whenever
`service.GetOrders` returns a nil error, the order list it returns is non-empty. -/
theorem GetOrders_zero_rows_is_error (env : handler.Env) (req : proto.GetOrdersRequest)
    (buyerId : uuid.UUID) (h : env.Parse req.CustomerId = Except.ok buyerId)
    {σ : Type} (st : Storage σ) (s : σ) :
    (∀ res : List AnyValue,
      (st.QueryByCondition Model.orders [("customer_id", CondValue.id buyerId)]
        ["Items", "Address"] s).1 = (res, none) →
      (res = [] ∨ ∃ rest, res = AnyValue.ordersPtr [] :: rest) →
      run st (service.GetOrders buyerId) s =
        (Outcome.done (none, some (GoError.errorf "no orders found")),
         (st.QueryByCondition Model.orders [("customer_id", CondValue.id buyerId)]
           ["Items", "Address"] s).2) ∧
      run st (handler.GetOrders env req) s =
        (Outcome.done (none, some (GoError.errorf "no orders found")),
         (st.QueryByCondition Model.orders [("customer_id", CondValue.id buyerId)]
           ["Items", "Address"] s).2)) ∧
    (∀ (r : Option (List models.Order)) (s1 : σ),
      run st (service.GetOrders buyerId) s = (Outcome.done (r, none), s1) →
      ∃ orders, r = some orders ∧ orders ≠ []) := by
  constructor
  · intro res hq hres
    simp only [handler.GetOrders, h, service.GetOrders, Prog.bind_query, run_query, hq]
    rcases hres with rfl | ⟨rest, rfl⟩
    · exact ⟨rfl, rfl⟩
    · exact ⟨rfl, rfl⟩
  · intro r s1 hr
    simp only [service.GetOrders, run_query] at hr
    generalize (st.QueryByCondition Model.orders [("customer_id", CondValue.id buyerId)]
      ["Items", "Address"] s).2 = s2 at hr
    generalize (st.QueryByCondition Model.orders [("customer_id", CondValue.id buyerId)]
      ["Items", "Address"] s).1 = q at hr
    obtain ⟨res, err⟩ := q
    cases err with
    | some e => simp [service.GetOrders_afterQuery_error, run] at hr
    | none =>
      cases res with
      | nil => simp [service.GetOrders_afterQuery_nil, run] at hr
      | cons v rest =>
        cases v with
        | other t => simp [service.GetOrders_afterQuery_other, run] at hr
        | ordersPtr os =>
          cases os with
          | nil => simp [service.GetOrders_afterQuery_empty, run] at hr
          | cons o os =>
            simp only [service.GetOrders_afterQuery_rows, run, Prod.mk.injEq,
              Outcome.done.injEq, and_true] at hr
            exact ⟨o :: os, hr.1.symm, by simp⟩

/-- C5 on a store double whose query answers with a pointer to an empty order slice. -/
theorem GetOrders_zero_rows_is_error_witness :
    handler.sampleEnv.Parse "00000000-0000-0000-0000-000000000001" = Except.ok ⟨1⟩ ∧
    ((database.stubStorage none ([database.AnyValue.ordersPtr []], none) none).QueryByCondition
        database.Model.orders [("customer_id", database.CondValue.id ⟨1⟩)]
        ["Items", "Address"] []).1 = ([database.AnyValue.ordersPtr []], none) ∧
    run (database.stubStorage none ([database.AnyValue.ordersPtr []], none) none)
        (service.GetOrders ⟨1⟩) [] =
      (Outcome.done (none, some (GoError.errorf "no orders found")), ["QueryByCondition"]) ∧
    run (database.stubStorage none ([database.AnyValue.ordersPtr []], none) none)
        (handler.GetOrders handler.sampleEnv
          { CustomerId := "00000000-0000-0000-0000-000000000001" }) [] =
      (Outcome.done (none, some (GoError.errorf "no orders found")), ["QueryByCondition"]) ∧
    ∃ orders, some [sampleOrder] = some orders ∧ orders ≠ [] :=
  ⟨rfl, rfl,
   ((GetOrders_zero_rows_is_error handler.sampleEnv
      { CustomerId := "00000000-0000-0000-0000-000000000001" } ⟨1⟩ rfl
      (database.stubStorage none ([database.AnyValue.ordersPtr []], none) none) []).1
      [database.AnyValue.ordersPtr []] rfl (Or.inr ⟨[], rfl⟩)).1,
   ((GetOrders_zero_rows_is_error handler.sampleEnv
      { CustomerId := "00000000-0000-0000-0000-000000000001" } ⟨1⟩ rfl
      (database.stubStorage none ([database.AnyValue.ordersPtr []], none) none) []).1
      [database.AnyValue.ordersPtr []] rfl (Or.inr ⟨[], rfl⟩)).2,
   (GetOrders_zero_rows_is_error handler.sampleEnv
      { CustomerId := "00000000-0000-0000-0000-000000000001" } ⟨1⟩ rfl
      (database.stubStorage none ([database.AnyValue.ordersPtr [sampleOrder]], none) none) []).2
      (some [sampleOrder]) ["QueryByCondition"] rfl⟩

/-- C6, as stated, fails: when the query answers with a pointer to an empty order slice,
`service.GetOrder` returns that empty slice with a nil error, not "order not found". -/
theorem GetOrder_empty_slice_counterexample :
    (run (database.stubStorage none ([database.AnyValue.ordersPtr []], none) none)
        (service.GetOrder ⟨1⟩ "o-1") []).1 = Outcome.done ([], none) ∧
    (run (database.stubStorage none ([database.AnyValue.ordersPtr []], none) none)
        (service.GetOrder ⟨1⟩ "o-1") []).1 ≠
      Outcome.done ([], some (GoError.errorf "order not found")) := by
  refine ⟨rfl, ?_⟩
  intro hne
  have h1 : (run (database.stubStorage none ([database.AnyValue.ordersPtr []], none) none)
      (service.GetOrder ⟨1⟩ "o-1") []).1 = Outcome.done ([], none) := rfl
  rw [h1] at hne
  simp at hne

open database in
/-- C6, amended: when the store query succeeds with an empty result list,
`service.GetOrder` returns the error "order not found"; when it succeeds with a first
result that points to an empty order slice, `service.GetOrder` returns the empty slice
with a nil error, and the `GetOrder` and `UpdateOrderStatus` handlers then return the
error "no order found" with the message "No order found", after that one query and
without any update. -/
theorem GetOrder_zero_rows (customerId : uuid.UUID) (orderId : String)
    {σ : Type} (st : Storage σ) (s : σ) :
    ((st.QueryByCondition Model.orders
        [("customer_id", CondValue.id customerId), ("order_id", CondValue.str orderId)]
        ["Items", "Address"] s).1 = ([], none) →
      run st (service.GetOrder customerId orderId) s =
        (Outcome.done ([], some (GoError.errorf "order not found")),
         (st.QueryByCondition Model.orders
           [("customer_id", CondValue.id customerId), ("order_id", CondValue.str orderId)]
           ["Items", "Address"] s).2)) ∧
    (∀ rest : List AnyValue,
      (st.QueryByCondition Model.orders
        [("customer_id", CondValue.id customerId), ("order_id", CondValue.str orderId)]
        ["Items", "Address"] s).1 = (AnyValue.ordersPtr [] :: rest, none) →
      run st (service.GetOrder customerId orderId) s =
        (Outcome.done ([], none),
         (st.QueryByCondition Model.orders
           [("customer_id", CondValue.id customerId), ("order_id", CondValue.str orderId)]
           ["Items", "Address"] s).2) ∧
      (∀ (env : handler.Env) (req : proto.GetOrderRequest),
        env.Parse req.CustomerId = Except.ok customerId → req.OrderId = orderId →
        run st (handler.GetOrder env req) s =
          (Outcome.done (some { Order := none, Message := "No order found" },
             some (GoError.errorf "no order found")),
           (st.QueryByCondition Model.orders
             [("customer_id", CondValue.id customerId), ("order_id", CondValue.str orderId)]
             ["Items", "Address"] s).2)) ∧
      (∀ (env : handler.Env) (req : proto.UpdateOrderStatusRequest),
        env.Parse req.CustomerId = Except.ok customerId → req.OrderId = orderId →
        run st (handler.UpdateOrderStatus env req) s =
          (Outcome.done (some { Message := "No order found" },
             some (GoError.errorf "no order found")),
           (st.QueryByCondition Model.orders
             [("customer_id", CondValue.id customerId), ("order_id", CondValue.str orderId)]
             ["Items", "Address"] s).2))) := by
  refine ⟨?_, ?_⟩
  · intro hq
    simp only [service.GetOrder, run_query, hq]
    rfl
  · intro rest hq
    refine ⟨?_, ?_, ?_⟩
    · simp only [service.GetOrder, run_query, hq]
      rfl
    · intro env req hp ho
      simp only [handler.GetOrder, hp, ho, service.GetOrder, Prog.bind_query, run_query, hq]
      rfl
    · intro env req hp ho
      simp only [handler.UpdateOrderStatus, hp, ho, service.GetOrder, Prog.bind_query,
        run_query, hq]
      rfl

/-- C6, amended, on store doubles: one whose query answers with an empty list, and one
whose query answers with a pointer to an empty order slice. -/
theorem GetOrder_zero_rows_witness :
    run (database.stubStorage none ([], none) none) (service.GetOrder ⟨1⟩ "o-1") [] =
      (Outcome.done ([], some (GoError.errorf "order not found")), ["QueryByCondition"]) ∧
    run (database.stubStorage none ([database.AnyValue.ordersPtr []], none) none)
        (service.GetOrder ⟨1⟩ "o-1") [] =
      (Outcome.done ([], none), ["QueryByCondition"]) ∧
    run (database.stubStorage none ([database.AnyValue.ordersPtr []], none) none)
        (handler.GetOrder handler.sampleEnv
          { CustomerId := "00000000-0000-0000-0000-000000000001", OrderId := "o-1" }) [] =
      (Outcome.done (some { Order := none, Message := "No order found" },
         some (GoError.errorf "no order found")), ["QueryByCondition"]) ∧
    run (database.stubStorage none ([database.AnyValue.ordersPtr []], none) none)
        (handler.UpdateOrderStatus handler.sampleEnv
          { CustomerId := "00000000-0000-0000-0000-000000000001", OrderId := "o-1",
            Status := "shipped" }) [] =
      (Outcome.done (some { Message := "No order found" },
         some (GoError.errorf "no order found")), ["QueryByCondition"]) :=
  ⟨(GetOrder_zero_rows ⟨1⟩ "o-1" (database.stubStorage none ([], none) none) []).1 rfl,
   ((GetOrder_zero_rows ⟨1⟩ "o-1"
      (database.stubStorage none ([database.AnyValue.ordersPtr []], none) none) []).2
      [] rfl).1,
   ((GetOrder_zero_rows ⟨1⟩ "o-1"
      (database.stubStorage none ([database.AnyValue.ordersPtr []], none) none) []).2
      [] rfl).2.1 handler.sampleEnv _ rfl rfl,
   ((GetOrder_zero_rows ⟨1⟩ "o-1"
      (database.stubStorage none ([database.AnyValue.ordersPtr []], none) none) []).2
      [] rfl).2.2 handler.sampleEnv _ rfl rfl⟩

/-- C7: for a create request whose customer id parses and that carries an address, the
handler passes an order to `service.CreateOrder` such that, whenever `service.GetOrder`
later returns as first row an order with the items, address and phone of that order,
the `GetOrder` handler answers "Successfully retrieved the order" with an order whose
item list is the request's item list (same length, order, product id, quantity and
price), whose address is the request's address field for field, and whose phone is the
request's phone. -/
theorem create_then_get_round_trip (env : handler.Env) (req : proto.CreateOrderRequest)
    (buyerId : uuid.UUID) (address : proto.Address)
    (h : env.Parse req.CustomerId = Except.ok buyerId) (ha : req.Address = some address) :
    ∃ order : models.Order,
      handler.CreateOrder env req =
        Prog.bind (service.CreateOrder env.tpl order) handler.CreateOrder.afterService ∧
      ∀ (stored : models.Order) (rest : List models.Order),
        stored.Items = order.Items → stored.Address = order.Address →
        stored.Phone = order.Phone →
        (∀ (getReq : proto.GetOrderRequest) (customerId : uuid.UUID),
          env.Parse getReq.CustomerId = Except.ok customerId →
          handler.GetOrder env getReq =
            Prog.bind (service.GetOrder customerId getReq.OrderId)
              handler.GetOrder.afterService) ∧
        ∃ r : proto.Order,
          handler.GetOrder.afterService (stored :: rest, none) =
            Prog.ret (some { Order := some r, Message := "Successfully retrieved the order" },
              none) ∧
          r.Items = req.Items ∧ r.Address = some address ∧ r.Phone = req.Phone := by
  simp only [handler.CreateOrder, h, ha, handler.CreateOrder.loop_eq]
  refine ⟨_, rfl, ?_⟩
  intro stored rest hi hadr hph
  refine ⟨?_, ?_⟩
  · intro getReq customerId hp
    simp only [handler.GetOrder, hp]
  · refine ⟨handler.GetOrder.response stored, rfl, ?_, ?_, ?_⟩
    · simp only [handler.GetOrder.response, handler.GetItemsFromOrder_eq, hi,
        models.Order.zero, List.nil_append, List.map_map]
      conv_rhs => rw [← List.map_id req.Items]
      apply List.map_congr_left
      intro item _
      rfl
    · simp only [handler.GetOrder.response, hadr]
    · simp only [handler.GetOrder.response, hph]

/-- C7 at the sample create request. -/
theorem create_then_get_round_trip_witness :
    handler.sampleEnv.Parse sampleCreateRequest.CustomerId = Except.ok ⟨1⟩ ∧
    sampleCreateRequest.Address = some sampleAddress ∧
    ∃ order : models.Order,
      handler.CreateOrder handler.sampleEnv sampleCreateRequest =
        Prog.bind (service.CreateOrder handler.sampleEnv.tpl order)
          handler.CreateOrder.afterService ∧
      ∀ (stored : models.Order) (rest : List models.Order),
        stored.Items = order.Items → stored.Address = order.Address →
        stored.Phone = order.Phone →
        (∀ (getReq : proto.GetOrderRequest) (customerId : uuid.UUID),
          handler.sampleEnv.Parse getReq.CustomerId = Except.ok customerId →
          handler.GetOrder handler.sampleEnv getReq =
            Prog.bind (service.GetOrder customerId getReq.OrderId)
              handler.GetOrder.afterService) ∧
        ∃ r : proto.Order,
          handler.GetOrder.afterService (stored :: rest, none) =
            Prog.ret (some { Order := some r, Message := "Successfully retrieved the order" },
              none) ∧
          r.Items = sampleCreateRequest.Items ∧ r.Address = some sampleAddress ∧
          r.Phone = sampleCreateRequest.Phone :=
  ⟨rfl, rfl,
   create_then_get_round_trip handler.sampleEnv sampleCreateRequest ⟨1⟩ sampleAddress rfl rfl⟩

/-- C8: for a request whose customer id parses, the handler first calls
`service.GetOrder`; whenever that returns a nil error and at least one row, what
follows is one call of `service.UpdateOrder`, which is one store `Update`, on the first
row with its `Status` replaced by the request's status text and nothing else changed,
whatever that text is and whether or not it differs from the stored status; when the
update answers nil, the handler returns a nil error with the message "Successfully
updated the order status". -/
theorem UpdateOrderStatus_overwrites_status (env : handler.Env)
    (req : proto.UpdateOrderStatusRequest) (buyerId : uuid.UUID)
    (h : env.Parse req.CustomerId = Except.ok buyerId) :
    handler.UpdateOrderStatus env req =
      Prog.bind (service.GetOrder buyerId req.OrderId)
        (handler.UpdateOrderStatus.afterService req) ∧
    ∀ (first : models.Order) (rest : List models.Order),
      handler.UpdateOrderStatus.afterService req (first :: rest, none) =
        Prog.bind (service.UpdateOrder { first with Status := req.Status })
          handler.UpdateOrderStatus.afterUpdate ∧
      Prog.bind (service.UpdateOrder { first with Status := req.Status })
          handler.UpdateOrderStatus.afterUpdate =
        Prog.update { first with Status := req.Status } handler.UpdateOrderStatus.afterUpdate ∧
      handler.UpdateOrderStatus.afterUpdate none =
        Prog.ret (some { Message := "Successfully updated the order status" }, none) := by
  refine ⟨by simp only [handler.UpdateOrderStatus, h], ?_⟩
  intro first rest
  refine ⟨?_, ?_, rfl⟩
  · by_cases hs : first.Status = req.Status
    · have he : ({ first with Status := req.Status } : models.Order) = first := by
        rw [← hs]
      rw [he]
      simp [handler.UpdateOrderStatus.afterService, hs]
    · simp [handler.UpdateOrderStatus.afterService, hs]
  · rw [service.UpdateOrder_eq, Prog.bind_update]
    rfl

/-- C8 at the sample update request, whose status "teleported" is no known status. -/
theorem UpdateOrderStatus_overwrites_status_witness :
    handler.sampleEnv.Parse sampleUpdateRequest.CustomerId = Except.ok ⟨1⟩ ∧
    (handler.UpdateOrderStatus handler.sampleEnv sampleUpdateRequest =
      Prog.bind (service.GetOrder ⟨1⟩ sampleUpdateRequest.OrderId)
        (handler.UpdateOrderStatus.afterService sampleUpdateRequest) ∧
    ∀ (first : models.Order) (rest : List models.Order),
      handler.UpdateOrderStatus.afterService sampleUpdateRequest (first :: rest, none) =
        Prog.bind (service.UpdateOrder { first with Status := sampleUpdateRequest.Status })
          handler.UpdateOrderStatus.afterUpdate ∧
      Prog.bind (service.UpdateOrder { first with Status := sampleUpdateRequest.Status })
          handler.UpdateOrderStatus.afterUpdate =
        Prog.update { first with Status := sampleUpdateRequest.Status }
          handler.UpdateOrderStatus.afterUpdate ∧
      handler.UpdateOrderStatus.afterUpdate none =
        Prog.ret (some { Message := "Successfully updated the order status" }, none)) :=
  ⟨rfl, UpdateOrderStatus_overwrites_status handler.sampleEnv sampleUpdateRequest ⟨1⟩ rfl⟩

/-- The sample update request against a store double that holds the sample order and
accepts the update: one query, one update, and the success message. -/
theorem UpdateOrderStatus_sample_run :
    run (database.stubStorage none ([database.AnyValue.ordersPtr [sampleOrder]], none) none)
        (handler.UpdateOrderStatus handler.sampleEnv sampleUpdateRequest) [] =
      (Outcome.done (some { Message := "Successfully updated the order status" }, none),
       ["QueryByCondition", "Update"]) := by
  rfl

/-- C9, as stated, fails: when the query made for `GetOrders` fails with an error, the
handler returns that error with a nil response, so no message carries the error text. -/
theorem GetOrders_store_error_counterexample :
    (run (database.stubStorage none ([], some sampleStoreError) none)
        (handler.GetOrders handler.sampleEnv
          { CustomerId := "00000000-0000-0000-0000-000000000001" }) []).1 =
      Outcome.done (none, some sampleStoreError) ∧
    ¬ ∃ resp : proto.GetOrdersResponse,
      (run (database.stubStorage none ([], some sampleStoreError) none)
        (handler.GetOrders handler.sampleEnv
          { CustomerId := "00000000-0000-0000-0000-000000000001" }) []).1 =
      Outcome.done (some resp, some sampleStoreError) := by
  refine ⟨rfl, ?_⟩
  rintro ⟨resp, hresp⟩
  have h1 : (run (database.stubStorage none ([], some sampleStoreError) none)
      (handler.GetOrders handler.sampleEnv
        { CustomerId := "00000000-0000-0000-0000-000000000001" }) []).1 =
      Outcome.done (none, some sampleStoreError) := rfl
  rw [h1] at hresp
  simp at hresp

open database in
/-- C9, amended: for a request whose customer id parses, a store call that fails with
error `e` makes the handler return `e` itself, with no further store call. When the
failing call is the transaction of `CreateOrder` or the update of `UpdateOrderStatus`,
the response is non-nil and its message is a fixed text followed by the text of `e`;
when it is the query of `GetOrders`, `GetOrder` or `UpdateOrderStatus`, the response is
nil. -/
theorem store_errors_are_returned (env : handler.Env) :
    (∀ (req : proto.CreateOrderRequest) (buyerId : uuid.UUID) (address : proto.Address),
      env.Parse req.CustomerId = Except.ok buyerId → req.Address = some address →
      ∃ txn k, handler.CreateOrder env req = Prog.transaction txn k ∧
        ∀ e : GoError, k (some e) =
          Prog.ret (some { Message := "Failed to create the order. error: " ++ e.Error },
            some e)) ∧
    (∀ (req : proto.GetOrdersRequest) (buyerId : uuid.UUID),
      env.Parse req.CustomerId = Except.ok buyerId →
      ∃ k, handler.GetOrders env req =
          Prog.query Model.orders [("customer_id", CondValue.id buyerId)]
            ["Items", "Address"] k ∧
        ∀ (res : List AnyValue) (e : GoError), k (res, some e) = Prog.ret (none, some e)) ∧
    (∀ (req : proto.GetOrderRequest) (buyerId : uuid.UUID),
      env.Parse req.CustomerId = Except.ok buyerId →
      ∃ k, handler.GetOrder env req =
          Prog.query Model.orders
            [("customer_id", CondValue.id buyerId), ("order_id", CondValue.str req.OrderId)]
            ["Items", "Address"] k ∧
        ∀ (res : List AnyValue) (e : GoError), k (res, some e) = Prog.ret (none, some e)) ∧
    (∀ (req : proto.UpdateOrderStatusRequest) (buyerId : uuid.UUID),
      env.Parse req.CustomerId = Except.ok buyerId →
      ∃ k, handler.UpdateOrderStatus env req =
          Prog.query Model.orders
            [("customer_id", CondValue.id buyerId), ("order_id", CondValue.str req.OrderId)]
            ["Items", "Address"] k ∧
        (∀ (res : List AnyValue) (e : GoError), k (res, some e) = Prog.ret (none, some e)) ∧
        ∀ (first : models.Order) (more : List models.Order) (rest : List AnyValue),
          ∃ k2, k (AnyValue.ordersPtr (first :: more) :: rest, none) =
              Prog.update { first with Status := req.Status } k2 ∧
            ∀ e : GoError, k2 (some e) =
              Prog.ret
                (some { Message := "Failed to update the order status. error: " ++ e.Error },
                 some e)) := by
  refine ⟨?_, ?_, ?_, ?_⟩
  · intro req buyerId address h ha
    simp only [handler.CreateOrder, h, ha, service.CreateOrder_eq, Prog.bind_transaction]
    exact ⟨_, _, rfl, fun e => rfl⟩
  · intro req buyerId h
    simp only [handler.GetOrders, h, service.GetOrders, Prog.bind_query]
    exact ⟨_, rfl, fun res e => rfl⟩
  · intro req buyerId h
    simp only [handler.GetOrder, h, service.GetOrder, Prog.bind_query]
    exact ⟨_, rfl, fun res e => rfl⟩
  · intro req buyerId h
    simp only [handler.UpdateOrderStatus, h, service.GetOrder, Prog.bind_query]
    refine ⟨_, rfl, fun res e => rfl, ?_⟩
    intro first more rest
    have hk := (afterService_rows_eq req first more)
    refine ⟨handler.UpdateOrderStatus.afterUpdate, ?_, fun e => rfl⟩
    simp only [service.GetOrder_afterQuery_rows, Prog.bind_ret]
    exact hk

/-- C9, amended, at the sample requests. -/
theorem store_errors_are_returned_witness :
    handler.sampleEnv.Parse "00000000-0000-0000-0000-000000000001" = Except.ok ⟨1⟩ ∧
    sampleCreateRequest.Address = some sampleAddress ∧
    (∃ txn k, handler.CreateOrder handler.sampleEnv sampleCreateRequest =
        Prog.transaction txn k ∧
      ∀ e : GoError, k (some e) =
        Prog.ret (some { Message := "Failed to create the order. error: " ++ e.Error },
          some e)) ∧
    (∃ k, handler.GetOrders handler.sampleEnv sampleGetOrdersRequest =
        Prog.query database.Model.orders [("customer_id", database.CondValue.id ⟨1⟩)]
          ["Items", "Address"] k ∧
      ∀ (res : List database.AnyValue) (e : GoError),
        k (res, some e) = Prog.ret (none, some e)) ∧
    (∃ k, handler.GetOrder handler.sampleEnv sampleGetOrderRequest =
        Prog.query database.Model.orders
          [("customer_id", database.CondValue.id ⟨1⟩),
           ("order_id", database.CondValue.str sampleGetOrderRequest.OrderId)]
          ["Items", "Address"] k ∧
      ∀ (res : List database.AnyValue) (e : GoError),
        k (res, some e) = Prog.ret (none, some e)) ∧
    (∃ k, handler.UpdateOrderStatus handler.sampleEnv sampleUpdateRequest =
        Prog.query database.Model.orders
          [("customer_id", database.CondValue.id ⟨1⟩),
           ("order_id", database.CondValue.str sampleUpdateRequest.OrderId)]
          ["Items", "Address"] k ∧
      (∀ (res : List database.AnyValue) (e : GoError),
        k (res, some e) = Prog.ret (none, some e)) ∧
      ∀ (first : models.Order) (more : List models.Order) (rest : List database.AnyValue),
        ∃ k2, k (database.AnyValue.ordersPtr (first :: more) :: rest, none) =
            Prog.update { first with Status := sampleUpdateRequest.Status } k2 ∧
          ∀ e : GoError, k2 (some e) =
            Prog.ret
              (some { Message := "Failed to update the order status. error: " ++ e.Error },
               some e)) :=
  ⟨rfl, rfl,
   (store_errors_are_returned handler.sampleEnv).1 sampleCreateRequest ⟨1⟩ sampleAddress rfl rfl,
   (store_errors_are_returned handler.sampleEnv).2.1 sampleGetOrdersRequest ⟨1⟩ rfl,
   (store_errors_are_returned handler.sampleEnv).2.2.1 sampleGetOrderRequest ⟨1⟩ rfl,
   (store_errors_are_returned handler.sampleEnv).2.2.2 sampleUpdateRequest ⟨1⟩ rfl⟩

/-- The sample create request against a store double whose transaction fails: one
transaction, the store's error returned, and its text at the end of the message. -/
theorem CreateOrder_sample_run_store_error :
    run (database.stubStorage (some sampleStoreError) ([], none) none)
        (handler.CreateOrder handler.sampleEnv sampleCreateRequest) [] =
      (Outcome.done
        (some { Message := "Failed to create the order. error: connection refused" },
         some sampleStoreError),
       ["Transaction"]) := by
  rfl

/-- C10 at a failing input: when the query succeeds and the first element of its
result is not a pointer to an order slice, `service.GetOrders` dereferences a nil
pointer and panics, and so does the `GetOrders` handler; on the same store answer
`service.GetOrder` returns the error "type assertion failed". -/
theorem GetOrders_nil_dereference :
    run (database.stubStorage none ([database.AnyValue.other "*[]models.Product"], none) none)
        (service.GetOrders ⟨1⟩) [] =
      (Outcome.panicked "invalid memory address or nil pointer dereference",
       ["QueryByCondition"]) ∧
    run (database.stubStorage none ([database.AnyValue.other "*[]models.Product"], none) none)
        (handler.GetOrders handler.sampleEnv sampleGetOrdersRequest) [] =
      (Outcome.panicked "invalid memory address or nil pointer dereference",
       ["QueryByCondition"]) ∧
    run (database.stubStorage none ([database.AnyValue.other "*[]models.Product"], none) none)
        (service.GetOrder ⟨1⟩ "o-1") [] =
      (Outcome.done ([], some (GoError.errorf "type assertion failed")),
       ["QueryByCondition"]) :=
  ⟨rfl, rfl, rfl⟩
